import Mathlib

/-
Verification of the ADBC NIF lifecycle core (c_src/adbc_nif.cpp).

Shallow embedding: each NIF entry point becomes a Lean function over an
explicit model of Erlang terms, wrapper state and an event trace recording
the observable effects (host allocations, native-library calls, reads of
the native error struct, invocation of the native error release callback).
The native library itself is external: every embedded NIF is parametrised
by the outcome the native call would produce (a status code plus the error
struct it populates on failure).

Functions whose bodies live in the repository headers that are not part of
the reviewed sources (adbc_nif_resource.hpp, nif_utils.hpp) are modelled
from the specification; each such definition says so in its doc comment.
-/

namespace AdbcNif

/-- Model of an Erlang NIF term as built by this module: atoms, integers,
binaries (byte content as a character list), tuples, resource references,
and the distinguished badarg result produced by enif_make_badarg. -/
inductive ErlTerm
  | atom (s : String)
  | int (i : Int)
  | binary (bytes : List Char)
  | tuple2 (a b : ErlTerm)
  | tuple3 (a b c : ErlTerm)
  | resourceRef (kind : String) (addr : Nat)
  | badarg
  deriving DecidableEq, Repr

/-- Byte content of a string literal, for binary terms. -/
def str (s : String) : List Char := s.toList

/-- Model of `struct AdbcError` (adbc.h): message text, int32 vendor code,
a 5-byte sqlstate buffer, and whether the optional release callback is
non-null. -/
structure AdbcError where
  message : List Char
  vendor_code : Int
  sqlstate : List Char
  hasReleaseCallback : Bool
  deriving DecidableEq, Repr

/-- Outcome of one call into the native library: the returned status code
(0 = ADBC_STATUS_OK) and the error struct the call populated (only
meaningful when the code is nonzero). -/
structure NativeOutcome where
  code : Nat
  err : AdbcError
  deriving DecidableEq, Repr

/-- Observable effects of one NIF invocation, in program order. -/
inductive Event
  | allocResource
  | releaseResource
  | enifAlloc (addr : Nat)
  | enifFree (addr : Nat)
  | nativeCall (name : String)
  | readErrorFields
  | errorRelease
  deriving DecidableEq, Repr

/-- Modelled from the spec: the host's failure-result convention used by
the marshalling helper erlang::nif::error (nif_utils.hpp, not under src/):
a structured error term is wrapped as an error-tagged pair. -/
def nifError (t : ErlTerm) : ErlTerm := ErlTerm.tuple2 (ErlTerm.atom "error") t

/-- Modelled from the spec: erlang::nif::ok(env) acknowledgement atom
(nif_utils.hpp, not under src/). -/
def nifOkAtom : ErlTerm := ErlTerm.atom "ok"

/-- Modelled from the spec: erlang::nif::ok(env, term) success pair
(nif_utils.hpp, not under src/). -/
def nifOk (t : ErlTerm) : ErlTerm := ErlTerm.tuple2 (ErlTerm.atom "ok") t

/-- Modelled from the spec: erlang::nif::make_binary(env, cstr)
(nif_utils.hpp, not under src/) copies native text into a binary term. -/
def make_binary (s : List Char) : ErlTerm := ErlTerm.binary s

/-- Modelled from the spec: erlang::nif::make_binary(env, buf, n)
(nif_utils.hpp, not under src/) copies exactly n bytes of a native buffer
into a binary term. -/
def make_binary_n (s : List Char) (n : Nat) : ErlTerm := ErlTerm.binary (s.take n)

/-- nif_error_from_adbc_error (adbc_nif.cpp lines 19-25): translate a
native error struct into the error payload: a 3-tuple of the message as a
binary, the vendor code as an integer, and exactly 5 bytes of sqlstate. -/
def nif_error_from_adbc_error (error : AdbcError) : ErlTerm :=
  nifError (ErlTerm.tuple3
    (make_binary error.message)
    (ErlTerm.int error.vendor_code)
    (make_binary_n error.sqlstate 5))

/-- A handle wrapper (NifRes): the host-tracked envelope holding the
exclusively-owned native handle pointer, none once released. The Nat is
the heap address of the native struct. -/
structure Wrapper where
  val : Option Nat
  deriving DecidableEq, Repr

/-- What a NIF term argument resolves to: either it is not a resource of
the expected kind, or it refers to a wrapper. -/
inductive RefArg
  | badRef
  | ref (w : Wrapper)
  deriving DecidableEq, Repr

/-- The wrapper a RefArg refers to, if any. -/
def RefArg.wrapperOf : RefArg → Option Wrapper
  | RefArg.badRef => none
  | RefArg.ref w => some w

/-- Modelled from the spec: NifRes::get_resource (adbc_nif_resource.hpp,
not under src/). The spec: an operation "resolves the wrapper, requires a
valid native handle"; a wrapper whose native handle is null "only responds
to re-creation", and contract violations (wrong reference type, handle
already released) are "reported as a generic invalid-argument signal"
that "never reach the native library". Resolution fails on a wrong
reference or on a released (null) handle. -/
def get_resource : RefArg → Option Wrapper
  | RefArg.badRef => none
  | RefArg.ref w =>
    match w.val with
    | none => none
    | some _ => some w

/-- Modelled from the spec: the registered destructor
NifRes::destruct_resource (adbc_nif_resource.hpp, not under src/): it
"must free the native handle if still non-null and never double-free".
Returns the effects it performs. -/
def destruct_resource (w : Wrapper) : List Event :=
  match w.val with
  | some a => [Event.enifFree a]
  | none => []

/-- Modelled from the spec: erlang::nif::get(env, term, std::string&)
(nif_utils.hpp, not under src/): a host value either is representable as
native text (a binary) or is not; "malformed input is a contract
violation". -/
def nif_get_string : ErlTerm → Option (List Char)
  | ErlTerm.binary s => some s
  | _ => none

/-- Modelled from the spec: the error result allocate_resource produces
when the host "cannot allocate a tracked wrapper"; allocator exhaustion is
"surfaced immediately as an error result". -/
def alloc_exhausted_error : ErlTerm := nifError (ErlTerm.binary (str "cannot allocate resource"))

/-- Result of one of the new() NIFs: either the code dereferences the
unchecked, failed enif_alloc (memset on a null pointer), or it returns a
term, the freshly constructed wrapper the returned reference points to (if
any), and the event trace. -/
inductive NewOut
  | nullDeref (events : List Event)
  | ret (result : ErlTerm) (wrapper : Option Wrapper) (events : List Event)
  deriving DecidableEq, Repr

/-- The trace of a NewOut. -/
def NewOut.events : NewOut → List Event
  | NewOut.nullDeref evs => evs
  | NewOut.ret _ _ evs => evs

/-- The returned term of a NewOut, none when the code crashed instead of
returning. -/
def NewOut.retTerm : NewOut → Option ErlTerm
  | NewOut.nullDeref _ => none
  | NewOut.ret r _ _ => some r

/-- The wrapper a returned reference points to, if any. -/
def NewOut.wrapperOut : NewOut → Option Wrapper
  | NewOut.nullDeref _ => none
  | NewOut.ret _ w _ => w

/-- Result of a set_option / init / release NIF: returned term, the state
of the wrapper argv[0] resolved to after the call (if argv[0] was a
wrapper reference at all), and the event trace. -/
structure NifOut where
  result : ErlTerm
  wrapper : Option Wrapper
  events : List Event
  deriving DecidableEq, Repr

/-- adbc_database_new (adbc_nif.cpp lines 27-53). Parameters: whether
allocate_resource succeeds, the address enif_alloc returns for the native
struct (none = allocation failure, which the code does not check before
memset), and the native call's outcome. -/
def adbc_database_new (resAlloc : Bool) (valAlloc : Option Nat) (native : NativeOutcome) : NewOut :=
  if resAlloc = false then
    NewOut.ret alloc_exhausted_error none []
  else
    match valAlloc with
    | none => NewOut.nullDeref [Event.allocResource]
    | some a =>
      let evs := [Event.allocResource, Event.enifAlloc a, Event.nativeCall "AdbcDatabaseNew"]
      if native.code = 0 then
        NewOut.ret (nifOk (ErlTerm.resourceRef "AdbcDatabase" a)) (some { val := some a })
          (evs ++ [Event.releaseResource])
      else
        NewOut.ret (nif_error_from_adbc_error native.err) none
          (evs ++ [Event.enifFree a, Event.releaseResource, Event.readErrorFields] ++
            (if native.err.hasReleaseCallback then [Event.errorRelease] else []))

/-- adbc_database_set_option (adbc_nif.cpp lines 55-83). -/
def adbc_database_set_option (arg : RefArg) (key value : ErlTerm) (native : NativeOutcome) : NifOut :=
  match get_resource arg with
  | none => { result := ErlTerm.badarg, wrapper := arg.wrapperOf, events := [] }
  | some database =>
    match nif_get_string key with
    | none => { result := ErlTerm.badarg, wrapper := some database, events := [] }
    | some _ =>
      match nif_get_string value with
      | none => { result := ErlTerm.badarg, wrapper := some database, events := [] }
      | some _ =>
        let evs := [Event.nativeCall "AdbcDatabaseSetOption"]
        if native.code = 0 then
          { result := nifOkAtom, wrapper := some database, events := evs }
        else
          { result := nif_error_from_adbc_error native.err, wrapper := some database,
            events := evs ++ [Event.readErrorFields] ++
              (if native.err.hasReleaseCallback then [Event.errorRelease] else []) }

/-- adbc_database_init (adbc_nif.cpp lines 85-105). -/
def adbc_database_init (arg : RefArg) (native : NativeOutcome) : NifOut :=
  match get_resource arg with
  | none => { result := ErlTerm.badarg, wrapper := arg.wrapperOf, events := [] }
  | some database =>
    let evs := [Event.nativeCall "AdbcDatabaseInit"]
    if native.code = 0 then
      { result := nifOkAtom, wrapper := some database, events := evs }
    else
      { result := nif_error_from_adbc_error native.err, wrapper := some database,
        events := evs ++ [Event.readErrorFields] ++
          (if native.err.hasReleaseCallback then [Event.errorRelease] else []) }

/-- adbc_database_release (adbc_nif.cpp lines 107-133). -/
def adbc_database_release (arg : RefArg) (native : NativeOutcome) : NifOut :=
  match get_resource arg with
  | none => { result := ErlTerm.badarg, wrapper := arg.wrapperOf, events := [] }
  | some database =>
    match database.val with
    | none => { result := ErlTerm.badarg, wrapper := some database, events := [] }
    | some a =>
      let evs := [Event.nativeCall "AdbcDatabaseRelease"]
      if native.code = 0 then
        { result := nifOkAtom, wrapper := some { val := none }, events := evs ++ [Event.enifFree a] }
      else
        { result := nif_error_from_adbc_error native.err, wrapper := some database,
          events := evs ++ [Event.readErrorFields] ++
            (if native.err.hasReleaseCallback then [Event.errorRelease] else []) }

/-- adbc_connection_new (adbc_nif.cpp lines 135-161). Same shape as
adbc_database_new with the Connection resource kind and native entry. -/
def adbc_connection_new (resAlloc : Bool) (valAlloc : Option Nat) (native : NativeOutcome) : NewOut :=
  if resAlloc = false then
    NewOut.ret alloc_exhausted_error none []
  else
    match valAlloc with
    | none => NewOut.nullDeref [Event.allocResource]
    | some a =>
      let evs := [Event.allocResource, Event.enifAlloc a, Event.nativeCall "AdbcConnectionNew"]
      if native.code = 0 then
        NewOut.ret (nifOk (ErlTerm.resourceRef "AdbcConnection" a)) (some { val := some a })
          (evs ++ [Event.releaseResource])
      else
        NewOut.ret (nif_error_from_adbc_error native.err) none
          (evs ++ [Event.enifFree a, Event.releaseResource, Event.readErrorFields] ++
            (if native.err.hasReleaseCallback then [Event.errorRelease] else []))

/-- adbc_connection_set_option (adbc_nif.cpp lines 163-191). -/
def adbc_connection_set_option (arg : RefArg) (key value : ErlTerm) (native : NativeOutcome) : NifOut :=
  match get_resource arg with
  | none => { result := ErlTerm.badarg, wrapper := arg.wrapperOf, events := [] }
  | some connection =>
    match nif_get_string key with
    | none => { result := ErlTerm.badarg, wrapper := some connection, events := [] }
    | some _ =>
      match nif_get_string value with
      | none => { result := ErlTerm.badarg, wrapper := some connection, events := [] }
      | some _ =>
        let evs := [Event.nativeCall "AdbcConnectionSetOption"]
        if native.code = 0 then
          { result := nifOkAtom, wrapper := some connection, events := evs }
        else
          { result := nif_error_from_adbc_error native.err, wrapper := some connection,
            events := evs ++ [Event.readErrorFields] ++
              (if native.err.hasReleaseCallback then [Event.errorRelease] else []) }

/-- adbc_connection_init (adbc_nif.cpp lines 193-218): resolves the
connection from argv[0] and the database from argv[1] before calling the
native initialisation entry. The tracked wrapper state is the
connection's. -/
def adbc_connection_init (connArg dbArg : RefArg) (native : NativeOutcome) : NifOut :=
  match get_resource connArg with
  | none => { result := ErlTerm.badarg, wrapper := connArg.wrapperOf, events := [] }
  | some connection =>
    match get_resource dbArg with
    | none => { result := ErlTerm.badarg, wrapper := some connection, events := [] }
    | some _ =>
      let evs := [Event.nativeCall "AdbcConnectionInit"]
      if native.code = 0 then
        { result := nifOkAtom, wrapper := some connection, events := evs }
      else
        { result := nif_error_from_adbc_error native.err, wrapper := some connection,
          events := evs ++ [Event.readErrorFields] ++
            (if native.err.hasReleaseCallback then [Event.errorRelease] else []) }

/-- adbc_connection_release (adbc_nif.cpp lines 220-246). -/
def adbc_connection_release (arg : RefArg) (native : NativeOutcome) : NifOut :=
  match get_resource arg with
  | none => { result := ErlTerm.badarg, wrapper := arg.wrapperOf, events := [] }
  | some connection =>
    match connection.val with
    | none => { result := ErlTerm.badarg, wrapper := some connection, events := [] }
    | some a =>
      let evs := [Event.nativeCall "AdbcConnectionRelease"]
      if native.code = 0 then
        { result := nifOkAtom, wrapper := some { val := none }, events := evs ++ [Event.enifFree a] }
      else
        { result := nif_error_from_adbc_error native.err, wrapper := some connection,
          events := evs ++ [Event.readErrorFields] ++
            (if native.err.hasReleaseCallback then [Event.errorRelease] else []) }

/-- on_load (adbc_nif.cpp lines 248-266). Parameters: whether
enif_open_resource_type succeeds for each handle kind. Returns the load
result (0 = success, -1 = failure) together with which resource types
ended up registered; a failed first registration short-circuits, so the
second kind is then never registered. -/
def on_load (dbReg connReg : Bool) : Int × Bool × Bool :=
  if dbReg = false then (-1, false, false)
  else if connReg = false then (-1, true, false)
  else (0, true, true)

/-- Number of occurrences of an event in a trace. -/
def countEv (e : Event) : List Event → Nat
  | [] => 0
  | x :: rest => (if x = e then 1 else 0) + countEv e rest

/-- Whether a trace contains any call into the native library. -/
def hasNativeCall : List Event → Bool
  | [] => false
  | Event.nativeCall _ :: _ => true
  | _ :: rest => hasNativeCall rest

/-- True when no errorRelease occurs before the first readErrorFields:
the first of the two kinds of events to occur, if either occurs, is the
read of the error fields. -/
def readBeforeRelease : List Event → Bool
  | [] => true
  | Event.errorRelease :: _ => false
  | Event.readErrorFields :: _ => true
  | _ :: rest => readBeforeRelease rest

/-- The error-ownership protocol on one failure trace: the native error's
release callback is invoked exactly once when present (never when absent),
and never before the error fields have been read. -/
def errorReleaseProtocol (hasCb : Bool) (evs : List Event) : Prop :=
  countEv Event.errorRelease evs = (if hasCb then 1 else 0) ∧ readBeforeRelease evs = true

/-- Claim C2: for every native error struct the translator produces a
payload of exactly three fields in order (message as text, vendor code as
signed integer, sqlstate as exactly 5 bytes of text); in particular, for
message "bad option", vendor_code 42, sqlstate "42000" the payload is
exactly ("bad option", 42, "42000"). -/
theorem c2_error_payload (err : AdbcError) (r : Bool) (h : err.sqlstate.length = 5) :
    nif_error_from_adbc_error err =
      nifError (ErlTerm.tuple3 (ErlTerm.binary err.message)
        (ErlTerm.int err.vendor_code) (ErlTerm.binary err.sqlstate)) ∧
    nif_error_from_adbc_error
        { message := str "bad option", vendor_code := 42, sqlstate := str "42000",
          hasReleaseCallback := r } =
      nifError (ErlTerm.tuple3 (ErlTerm.binary (str "bad option"))
        (ErlTerm.int 42) (ErlTerm.binary (str "42000"))) := by
  constructor
  · simp [nif_error_from_adbc_error, make_binary, make_binary_n,
      List.take_of_length_le h.le]
  · simp [nif_error_from_adbc_error, make_binary, make_binary_n, str]

/-- Claim C2 witness: the payload round-trip at the concrete native error
("bad option", 42, "42000"). -/
theorem c2_error_payload_witness :
    (({ message := str "bad option", vendor_code := 42, sqlstate := str "42000",
        hasReleaseCallback := true } : AdbcError).sqlstate.length = 5) ∧
    nif_error_from_adbc_error
        { message := str "bad option", vendor_code := 42, sqlstate := str "42000",
          hasReleaseCallback := true } =
      nifError (ErlTerm.tuple3 (ErlTerm.binary (str "bad option"))
        (ErlTerm.int 42) (ErlTerm.binary (str "42000"))) :=
  ⟨by decide, (c2_error_payload
      { message := str "bad option", vendor_code := 42, sqlstate := str "42000",
        hasReleaseCallback := true } true (by decide)).2⟩

/-- Claim C10: module load succeeds exactly when the resource-type
registrations for both handle kinds succeed; when either fails, on_load
reports failure (-1). -/
theorem c10_on_load_requires_both (dbReg connReg : Bool) :
    (on_load dbReg connReg).1 = (if dbReg = true ∧ connReg = true then 0 else -1) ∧
    ((on_load dbReg connReg).1 = 0 ↔ (dbReg = true ∧ connReg = true)) := by
  cases dbReg <;> cases connReg <;> simp [on_load]

/-- Claim C1: set_option or init on a wrapper whose native handle is null
(post-release) — including passing such a Database as the database
argument of Connection init — returns the generic invalid-argument
failure, and the native library entry point is never called. -/
theorem c1_released_handle_rejected (w cw : Wrapper) (b : Nat) (hw : w.val = none)
    (hcw : cw.val = some b) (key value : ErlTerm) (native : NativeOutcome) :
    (adbc_database_set_option (RefArg.ref w) key value native).result = ErlTerm.badarg ∧
    hasNativeCall (adbc_database_set_option (RefArg.ref w) key value native).events = false ∧
    (adbc_database_init (RefArg.ref w) native).result = ErlTerm.badarg ∧
    hasNativeCall (adbc_database_init (RefArg.ref w) native).events = false ∧
    (adbc_connection_set_option (RefArg.ref w) key value native).result = ErlTerm.badarg ∧
    hasNativeCall (adbc_connection_set_option (RefArg.ref w) key value native).events = false ∧
    (adbc_connection_init (RefArg.ref w) (RefArg.ref cw) native).result = ErlTerm.badarg ∧
    hasNativeCall (adbc_connection_init (RefArg.ref w) (RefArg.ref cw) native).events = false ∧
    (adbc_connection_init (RefArg.ref cw) (RefArg.ref w) native).result = ErlTerm.badarg ∧
    hasNativeCall (adbc_connection_init (RefArg.ref cw) (RefArg.ref w) native).events = false := by
  simp [adbc_database_set_option, adbc_database_init, adbc_connection_set_option,
    adbc_connection_init, get_resource, hw, hcw, hasNativeCall]

/-- Claim C1 witness: a released (null) wrapper is rejected by
set_option at a concrete input. -/
theorem c1_released_handle_rejected_witness :
    (⟨none⟩ : Wrapper).val = none ∧
    (adbc_database_set_option (RefArg.ref ⟨none⟩) (ErlTerm.atom "k") (ErlTerm.atom "v")
      ⟨0, ⟨[], 0, [], false⟩⟩).result = ErlTerm.badarg :=
  ⟨rfl, (c1_released_handle_rejected ⟨none⟩ ⟨some 0⟩ 0 rfl rfl (ErlTerm.atom "k")
    (ErlTerm.atom "v") ⟨0, ⟨[], 0, [], false⟩⟩).1⟩

/-- Claim C4: for both handle kinds, releasing a live wrapper twice in
sequence (the native release succeeding the first time) yields success
first and an invalid-argument failure second; the first call leaves the
wrapper with a null handle, and release on that wrapper is rejected. -/
theorem c4_double_release (w cw : Wrapper) (a b : Nat) (hw : w.val = some a)
    (hcw : cw.val = some b) (native : NativeOutcome) (h0 : native.code = 0)
    (native2 : NativeOutcome) :
    (adbc_database_release (RefArg.ref w) native).result = nifOkAtom ∧
    (adbc_database_release (RefArg.ref w) native).wrapper = some { val := none } ∧
    (adbc_database_release (RefArg.ref { val := none }) native2).result = ErlTerm.badarg ∧
    (adbc_connection_release (RefArg.ref cw) native).result = nifOkAtom ∧
    (adbc_connection_release (RefArg.ref cw) native).wrapper = some { val := none } ∧
    (adbc_connection_release (RefArg.ref { val := none }) native2).result = ErlTerm.badarg := by
  simp [adbc_database_release, adbc_connection_release, get_resource, hw, hcw, h0]

/-- Claim C4 witness: double release at a concrete live wrapper. -/
theorem c4_double_release_witness :
    (⟨some 1⟩ : Wrapper).val = some 1 ∧
    (adbc_database_release (RefArg.ref ⟨some 1⟩) ⟨0, ⟨[], 0, [], false⟩⟩).result = nifOkAtom ∧
    (adbc_database_release (RefArg.ref ⟨none⟩) ⟨0, ⟨[], 0, [], false⟩⟩).result = ErlTerm.badarg :=
  ⟨rfl,
    (c4_double_release ⟨some 1⟩ ⟨some 2⟩ 1 2 rfl rfl ⟨0, ⟨[], 0, [], false⟩⟩ rfl
      ⟨0, ⟨[], 0, [], false⟩⟩).1,
    (c4_double_release ⟨some 1⟩ ⟨some 2⟩ 1 2 rfl rfl ⟨0, ⟨[], 0, [], false⟩⟩ rfl
      ⟨0, ⟨[], 0, [], false⟩⟩).2.2.1⟩

/-- Claim C5: for both handle kinds, a successful release frees the
native handle and nulls the wrapper's pointer, and the registered
destructor on the resulting wrapper performs nothing (no double-free
between explicit release and collector-triggered cleanup). -/
theorem c5_release_nulls_pointer (w cw : Wrapper) (a b : Nat) (hw : w.val = some a)
    (hcw : cw.val = some b) (native : NativeOutcome) (h0 : native.code = 0) :
    adbc_database_release (RefArg.ref w) native =
      { result := nifOkAtom, wrapper := some { val := none },
        events := [Event.nativeCall "AdbcDatabaseRelease", Event.enifFree a] } ∧
    adbc_connection_release (RefArg.ref cw) native =
      { result := nifOkAtom, wrapper := some { val := none },
        events := [Event.nativeCall "AdbcConnectionRelease", Event.enifFree b] } ∧
    destruct_resource { val := none } = [] := by
  simp [adbc_database_release, adbc_connection_release, get_resource, destruct_resource,
    hw, hcw, h0]

/-- Claim C5 witness: successful release of a concrete live wrapper
frees and nulls the handle, and the destructor on the result is a no-op. -/
theorem c5_release_nulls_pointer_witness :
    (⟨some 3⟩ : Wrapper).val = some 3 ∧
    adbc_database_release (RefArg.ref ⟨some 3⟩) ⟨0, ⟨[], 0, [], false⟩⟩ =
      { result := nifOkAtom, wrapper := some { val := none },
        events := [Event.nativeCall "AdbcDatabaseRelease", Event.enifFree 3] } ∧
    destruct_resource { val := none } = [] :=
  ⟨rfl,
    (c5_release_nulls_pointer ⟨some 3⟩ ⟨some 4⟩ 3 4 rfl rfl ⟨0, ⟨[], 0, [], false⟩⟩ rfl).1,
    (c5_release_nulls_pointer ⟨some 3⟩ ⟨some 4⟩ 3 4 rfl rfl ⟨0, ⟨[], 0, [], false⟩⟩ rfl).2.2⟩

/-- Claim C3: for both handle kinds, a native construction failure during
new() frees the just-allocated native handle, releases the wrapper back to
the host allocator, and returns the translated error; the caller receives
no wrapper reference and host allocations are balanced (no leak). -/
theorem c3_new_failure_unwinds (a : Nat) (native : NativeOutcome) (h : native.code ≠ 0) :
    (adbc_database_new true (some a) native).retTerm = some (nif_error_from_adbc_error native.err) ∧
    (adbc_database_new true (some a) native).wrapperOut = none ∧
    countEv (Event.enifAlloc a) (adbc_database_new true (some a) native).events =
      countEv (Event.enifFree a) (adbc_database_new true (some a) native).events ∧
    countEv Event.allocResource (adbc_database_new true (some a) native).events =
      countEv Event.releaseResource (adbc_database_new true (some a) native).events ∧
    (adbc_connection_new true (some a) native).retTerm = some (nif_error_from_adbc_error native.err) ∧
    (adbc_connection_new true (some a) native).wrapperOut = none ∧
    countEv (Event.enifAlloc a) (adbc_connection_new true (some a) native).events =
      countEv (Event.enifFree a) (adbc_connection_new true (some a) native).events ∧
    countEv Event.allocResource (adbc_connection_new true (some a) native).events =
      countEv Event.releaseResource (adbc_connection_new true (some a) native).events := by
  cases hr : native.err.hasReleaseCallback <;>
    simp [adbc_database_new, adbc_connection_new, h, hr, countEv,
      NewOut.retTerm, NewOut.wrapperOut, NewOut.events]

/-- Claim C3 witness: a failed native construction at a concrete input
returns the translated error and no wrapper. -/
theorem c3_new_failure_unwinds_witness :
    ((⟨1, ⟨str "boom", 7, str "00000", true⟩⟩ : NativeOutcome).code ≠ 0) ∧
    (adbc_database_new true (some 5) ⟨1, ⟨str "boom", 7, str "00000", true⟩⟩).retTerm =
      some (nif_error_from_adbc_error (⟨1, ⟨str "boom", 7, str "00000", true⟩⟩ : NativeOutcome).err) ∧
    (adbc_database_new true (some 5) ⟨1, ⟨str "boom", 7, str "00000", true⟩⟩).wrapperOut = none :=
  ⟨by decide,
    (c3_new_failure_unwinds 5 ⟨1, ⟨str "boom", 7, str "00000", true⟩⟩ (by decide)).1,
    (c3_new_failure_unwinds 5 ⟨1, ⟨str "boom", 7, str "00000", true⟩⟩ (by decide)).2.1⟩

/-- Claim C6: the wrapper's native-handle pointer is unchanged by
set_option and init (on success and on native failure, covered by leaving
the native outcome arbitrary), and by release when the native release call
fails; in the release-failure case the handle stays intact and non-null. -/
theorem c6_pointer_frame (w cw dbw : Wrapper) (a b c : Nat) (hw : w.val = some a)
    (hcw : cw.val = some b) (hdb : dbw.val = some c) (k v : List Char)
    (native nativeFail : NativeOutcome) (hf : nativeFail.code ≠ 0) :
    (adbc_database_set_option (RefArg.ref w) (ErlTerm.binary k) (ErlTerm.binary v) native).wrapper = some w ∧
    (adbc_database_init (RefArg.ref w) native).wrapper = some w ∧
    (adbc_connection_set_option (RefArg.ref cw) (ErlTerm.binary k) (ErlTerm.binary v) native).wrapper = some cw ∧
    (adbc_connection_init (RefArg.ref cw) (RefArg.ref dbw) native).wrapper = some cw ∧
    (adbc_database_release (RefArg.ref w) nativeFail).wrapper = some w ∧
    (adbc_connection_release (RefArg.ref cw) nativeFail).wrapper = some cw ∧
    w.val = some a ∧ cw.val = some b := by
  by_cases h0 : native.code = 0 <;>
    simp [adbc_database_set_option, adbc_database_init, adbc_connection_set_option,
      adbc_connection_init, adbc_database_release, adbc_connection_release,
      get_resource, nif_get_string, hw, hcw, hdb, h0, hf]

/-- Claim C6 witness: pointer-frame property at concrete inputs, with a
failing native release leaving the handle intact and non-null. -/
theorem c6_pointer_frame_witness :
    (⟨some 1⟩ : Wrapper).val = some 1 ∧
    ((⟨1, ⟨[], 0, [], false⟩⟩ : NativeOutcome).code ≠ 0) ∧
    (adbc_database_set_option (RefArg.ref ⟨some 1⟩) (ErlTerm.binary (str "k"))
      (ErlTerm.binary (str "v")) ⟨0, ⟨[], 0, [], false⟩⟩).wrapper = some ⟨some 1⟩ ∧
    (adbc_database_release (RefArg.ref ⟨some 1⟩) ⟨1, ⟨[], 0, [], false⟩⟩).wrapper = some ⟨some 1⟩ :=
  ⟨rfl, by decide,
    (c6_pointer_frame ⟨some 1⟩ ⟨some 2⟩ ⟨some 3⟩ 1 2 3 rfl rfl rfl (str "k") (str "v")
      ⟨0, ⟨[], 0, [], false⟩⟩ ⟨1, ⟨[], 0, [], false⟩⟩ (by decide)).1,
    (c6_pointer_frame ⟨some 1⟩ ⟨some 2⟩ ⟨some 3⟩ 1 2 3 rfl rfl rfl (str "k") (str "v")
      ⟨0, ⟨[], 0, [], false⟩⟩ ⟨1, ⟨[], 0, [], false⟩⟩ (by decide)).2.2.2.2.1⟩

/-- Claim C7: on every failure path of every native-library call (new,
set_option, init, release, both handle kinds), the native error's release
callback is invoked exactly once when present (never when absent), and
never before the message/vendor/sqlstate fields have been read. -/
theorem c7_error_release_protocol (w cw dbw : Wrapper) (a b c addr : Nat)
    (hw : w.val = some a) (hcw : cw.val = some b) (hdb : dbw.val = some c)
    (k v : List Char) (native : NativeOutcome) (h : native.code ≠ 0) :
    errorReleaseProtocol native.err.hasReleaseCallback
      (adbc_database_new true (some addr) native).events ∧
    errorReleaseProtocol native.err.hasReleaseCallback
      (adbc_database_set_option (RefArg.ref w) (ErlTerm.binary k) (ErlTerm.binary v) native).events ∧
    errorReleaseProtocol native.err.hasReleaseCallback
      (adbc_database_init (RefArg.ref w) native).events ∧
    errorReleaseProtocol native.err.hasReleaseCallback
      (adbc_database_release (RefArg.ref w) native).events ∧
    errorReleaseProtocol native.err.hasReleaseCallback
      (adbc_connection_new true (some addr) native).events ∧
    errorReleaseProtocol native.err.hasReleaseCallback
      (adbc_connection_set_option (RefArg.ref cw) (ErlTerm.binary k) (ErlTerm.binary v) native).events ∧
    errorReleaseProtocol native.err.hasReleaseCallback
      (adbc_connection_init (RefArg.ref cw) (RefArg.ref dbw) native).events ∧
    errorReleaseProtocol native.err.hasReleaseCallback
      (adbc_connection_release (RefArg.ref cw) native).events := by
  cases hr : native.err.hasReleaseCallback <;>
    simp [errorReleaseProtocol, adbc_database_new, adbc_database_set_option,
      adbc_database_init, adbc_database_release, adbc_connection_new,
      adbc_connection_set_option, adbc_connection_init, adbc_connection_release,
      get_resource, nif_get_string, hw, hcw, hdb, h, hr, countEv, readBeforeRelease,
      NewOut.events]

/-- Claim C7 witness: the release-callback protocol at a concrete failing
native call whose error carries a release callback. -/
theorem c7_error_release_protocol_witness :
    ((⟨2, ⟨str "x", 1, str "42000", true⟩⟩ : NativeOutcome).code ≠ 0) ∧
    errorReleaseProtocol true
      (adbc_database_set_option (RefArg.ref ⟨some 1⟩) (ErlTerm.binary (str "k"))
        (ErlTerm.binary (str "v")) ⟨2, ⟨str "x", 1, str "42000", true⟩⟩).events :=
  ⟨by decide,
    (c7_error_release_protocol ⟨some 1⟩ ⟨some 2⟩ ⟨some 3⟩ 1 2 3 9 rfl rfl rfl
      (str "k") (str "v") ⟨2, ⟨str "x", 1, str "42000", true⟩⟩ (by decide)).2.1⟩

/-- Claim C8: set_option (either handle kind) with a key or value that is
not representable as native text returns the generic invalid-argument
signal — distinct from a translated library error — and the native
option-setter is never invoked. -/
theorem c8_malformed_text_rejected (w cw : Wrapper) (a b : Nat) (hw : w.val = some a)
    (hcw : cw.val = some b) (key value : ErlTerm) (native : NativeOutcome)
    (h : nif_get_string key = none ∨ nif_get_string value = none) :
    (adbc_database_set_option (RefArg.ref w) key value native).result = ErlTerm.badarg ∧
    hasNativeCall (adbc_database_set_option (RefArg.ref w) key value native).events = false ∧
    (adbc_connection_set_option (RefArg.ref cw) key value native).result = ErlTerm.badarg ∧
    hasNativeCall (adbc_connection_set_option (RefArg.ref cw) key value native).events = false ∧
    ErlTerm.badarg ≠ nif_error_from_adbc_error native.err := by
  rcases h with hk | hv
  · simp [adbc_database_set_option, adbc_connection_set_option, get_resource,
      hw, hcw, hk, hasNativeCall, nif_error_from_adbc_error, nifError]
  · cases hk : nif_get_string key <;>
      simp [adbc_database_set_option, adbc_connection_set_option, get_resource,
        hw, hcw, hk, hv, hasNativeCall, nif_error_from_adbc_error, nifError]

/-- Claim C8 witness: a non-binary key is rejected without reaching the
native library at a concrete input. -/
theorem c8_malformed_text_rejected_witness :
    (nif_get_string (ErlTerm.atom "k") = none ∨
      nif_get_string (ErlTerm.binary (str "v")) = none) ∧
    (adbc_database_set_option (RefArg.ref ⟨some 1⟩) (ErlTerm.atom "k")
      (ErlTerm.binary (str "v")) ⟨0, ⟨[], 0, [], false⟩⟩).result = ErlTerm.badarg :=
  ⟨Or.inl rfl,
    (c8_malformed_text_rejected ⟨some 1⟩ ⟨some 2⟩ 1 2 rfl rfl (ErlTerm.atom "k")
      (ErlTerm.binary (str "v")) ⟨0, ⟨[], 0, [], false⟩⟩ (Or.inl rfl)).1⟩

/-- Claim C9 counterexample: when the tracked-wrapper allocation succeeds
but the host cannot allocate the native handle struct, new() does not
abort with an error result: the unchecked enif_alloc result is immediately
zero-initialised, dereferencing the null allocation (adbc_nif.cpp lines
36-37), and no term is returned. -/
theorem c9_counterexample :
    adbc_database_new true none ⟨0, ⟨[], 0, [], false⟩⟩ =
      NewOut.nullDeref [Event.allocResource] ∧
    (adbc_database_new true none ⟨0, ⟨[], 0, [], false⟩⟩).retTerm = none :=
  ⟨rfl, rfl⟩

/-- Claim C9 amended: if the host allocator cannot satisfy the
tracked-wrapper allocation, new() (either kind) aborts early and returns
an error result, without calling the native library and without returning
any wrapper; the native-handle-struct allocation is not checked, and its
failure leads to a null dereference instead of an error return. -/
theorem c9_wrapper_alloc_guarded (valAlloc : Option Nat) (native : NativeOutcome) :
    adbc_database_new false valAlloc native = NewOut.ret alloc_exhausted_error none [] ∧
    adbc_connection_new false valAlloc native = NewOut.ret alloc_exhausted_error none [] ∧
    adbc_database_new true none native = NewOut.nullDeref [Event.allocResource] ∧
    adbc_connection_new true none native = NewOut.nullDeref [Event.allocResource] := by
  simp [adbc_database_new, adbc_connection_new]

end AdbcNif
